import Mathlib

/-!
Verification of the shakespearean-pokemon aggregation service.

The Rust sources are shallowly embedded: each struct becomes a Lean
structure, each enum an inductive, and each function a Lean function.
HTTP traffic is abstracted by its observable outcome (`HttpResult`):
either a transport failure or a response carrying a status code and
the result of deserializing the body.  Route handlers receive the
upstream clients as explicit functions and return, next to the reply,
the list of transformation calls they issued, so that "no call is
made" is a statement about that list.
-/

set_option linter.unusedVariables false
set_option maxRecDepth 8192

namespace Svc

/-! ## Data model (src/client/pokemon_client.rs) -/

/-- Mirrors `Language` in pokemon_client.rs. -/
structure Language where
  name : String
  url : String
deriving DecidableEq, Repr

/-- Mirrors `FlavorTextEntry` in pokemon_client.rs. -/
structure FlavorTextEntry where
  flavor_text : String
  language : Language
deriving DecidableEq, Repr

/-- Mirrors `Habitat` in pokemon_client.rs. -/
structure Habitat where
  name : String
  url : String
deriving DecidableEq, Repr

/-- Mirrors `Pokemon` in pokemon_client.rs. -/
structure Pokemon where
  id : Int
  name : String
  is_legendary : Bool
  habitat : Habitat
  flavor_text_entries : List FlavorTextEntry
deriving DecidableEq, Repr

/-- Mirrors `ClientError` in src/client/client_error.rs.  The file on disk
declares the `Pokemon*` and `Shakespeare*` variants; the sibling module
translation_client.rs additionally references the `Translation*` variants
of the same enum, so the embedding carries the union. -/
inductive ClientError where
  | PokemonNotFoundError
  | PokemonDeserializationError
  | PokemonAPIError
  | ShakespeareDeserializationError
  | ShakespeareAPIError
  | ShakespeareTooManyRequestsError
  | TranslationDeserializationError
  | TranslationAPIError
  | TranslationTooManyRequestsError
deriving DecidableEq, Repr

/-! ## Character-level model of Rust `str::replace`

`Pokemon::get_description` only ever calls `str::replace` with
single-character patterns (`"\n"` and `"\u{c}"`).  For a one-character
needle, Rust replaces each occurrence of that character independently,
which is exactly a character-wise substitution on the characters of the
string. -/

/-- Rust `s.replace(needle, repl)` specialized to a single-character
needle: every occurrence of `needle` in `s` is replaced by `repl`. -/
def rustReplace (s : String) (needle : Char) (repl : String) : String :=
  ⟨s.data.flatMap (fun c => if c = needle then repl.data else [c])⟩

/-- Mirrors `Pokemon::get_description`: find the first flavor-text entry
whose language is "en", replace each newline with a space and delete
each form-feed character (`"\u{c}"` is replaced by the empty string). -/
def Pokemon.get_description (p : Pokemon) : Option String :=
  (p.flavor_text_entries.find? (fun entry => entry.language.name == "en")).map
    (fun entry => rustReplace (rustReplace entry.flavor_text '\n' " ") '\x0C' "")

/-- Modelled from the spec: the free function `get_description` that
src/routes/pokemon.rs imports from the pokemon-client module is not
present in src/client/pokemon_client.rs (only the method form
`Pokemon::get_description` is); per the spec it performs the same
selection of the first "en" entry and the same normalization. -/
def get_description (entries : List FlavorTextEntry) : Option String :=
  (entries.find? (fun entry => entry.language.name == "en")).map
    (fun entry => rustReplace (rustReplace entry.flavor_text '\n' " ") '\x0C' "")

/-- Normalization as the specification words it, for refinement
comparison against the implementation: every embedded newline and every
form-feed control character collapses to a single space, and all other
characters are preserved. -/
def claimNormalize (s : String) : String :=
  ⟨s.data.map fun c => if c = '\n' ∨ c = '\x0C' then ' ' else c⟩

/-! ## HTTP abstraction -/

/-- Observable outcome of one HTTP exchange: either the transport failed
(connection refused, timeout, DNS failure), or a response arrived with a
status code and, for the body, the result of deserializing it into `α`
(`none` when deserialization fails). -/
inductive HttpResult (α : Type) where
  | transportError
  | response (status : Nat) (body : Option α)
deriving DecidableEq, Repr

/-! ## Species client (src/client/pokemon_client.rs) -/

/-- Mirrors `PokemonClient::get_pokemon`, as a function of the outcome of
the single HTTP exchange it performs: 200 deserializes the body or fails
with `PokemonDeserializationError`, 404 is `PokemonNotFoundError`, and a
transport failure or any other status is `PokemonAPIError`. -/
def PokemonClient.get_pokemon (h : HttpResult Pokemon) : Except ClientError Pokemon :=
  match h with
  | .transportError => .error .PokemonAPIError
  | .response status body =>
    if status = 200 then
      match body with
      | some data => .ok data
      | none => .error .PokemonDeserializationError
    else if status = 404 then .error .PokemonNotFoundError
    else .error .PokemonAPIError

/-! ## Transformation client (src/client/translation_client.rs) -/

/-- Mirrors `TranslationSuccess`. -/
structure TranslationSuccess where
  total : Int
deriving DecidableEq, Repr

/-- Mirrors `TranslationTextContents`. -/
structure TranslationTextContents where
  translated : String
  text : String
  translation : String
deriving DecidableEq, Repr

/-- Mirrors `TranslationResponse`. -/
structure TranslationResponse where
  success : TranslationSuccess
  contents : TranslationTextContents
deriving DecidableEq, Repr

/-- Mirrors `TranslationResponse::get_translation`: the translated text
is usable only when `success.total == 1`; any other total is mapped to
`TranslationAPIError`. -/
def TranslationResponse.get_translation (r : TranslationResponse) :
    Except ClientError String :=
  match r.success.total with
  | 1 => .ok r.contents.translated
  | _ => .error .TranslationAPIError

/-- Mirrors `TranslationType`. -/
inductive TranslationType where
  | YODA
  | SHAKESPEARE
deriving DecidableEq, Repr

/-- Mirrors `TranslationType::as_url`. -/
def TranslationType.as_url : TranslationType → String
  | .YODA => "translate/yoda.json"
  | .SHAKESPEARE => "translate/shakespeare.json"

/-- Mirrors `TranslationClient::get_translation_response`, as a function
of the outcome of the single HTTP POST it performs: 200 deserializes the
body or fails with `TranslationDeserializationError`, 429 is
`TranslationTooManyRequestsError`, and a transport failure or any other
status is `TranslationAPIError`. -/
def TranslationClient.get_translation_response (h : HttpResult TranslationResponse) :
    Except ClientError TranslationResponse :=
  match h with
  | .transportError => .error .TranslationAPIError
  | .response status body =>
    if status = 200 then
      match body with
      | some data => .ok data
      | none => .error .TranslationDeserializationError
    else if status = 429 then .error .TranslationTooManyRequestsError
    else .error .TranslationAPIError

/-- Mirrors `TranslationClient::get_translation`: obtain the response,
then extract the translated text through
`TranslationResponse::get_translation`. -/
def TranslationClient.get_translation (h : HttpResult TranslationResponse) :
    Except ClientError String := do
  let r ← TranslationClient.get_translation_response h
  r.get_translation

/-! ## Outward payloads (src/routes/mod.rs, src/routes/pokemon.rs) -/

/-- Mirrors `PokemonResponse` in src/routes/mod.rs. -/
structure PokemonResponse where
  name : String
  description : Option String
  is_legendary : Bool
  habitat : String
deriving DecidableEq, Repr

/-- Mirrors `GetPokemonOutput` in src/routes/pokemon.rs. -/
structure GetPokemonOutput where
  name : String
  description : String
deriving DecidableEq, Repr

/-- A reply from the translated route: either a JSON `PokemonResponse`
with a status code, or a JSON error body with a status code. -/
inductive Reply where
  | success (status : Nat) (body : PokemonResponse)
  | failure (status : Nat) (error : String)
deriving DecidableEq, Repr

/-- A reply from the plain pokemon route in src/routes/pokemon.rs:
either a JSON `GetPokemonOutput` with a status code, or a JSON error
body with a status code. -/
inductive PlainReply where
  | success (status : Nat) (body : GetPokemonOutput)
  | failure (status : Nat) (error : String)
deriving DecidableEq, Repr

/-! ## Translated route (src/routes/translated.rs) -/

/-- The variant selection inlined at the top of `translated::get`:
start from `SHAKESPEARE` and switch to `YODA` when the habitat is
"cave" or the species is legendary. -/
def selectTranslationType (p : Pokemon) : TranslationType :=
  if p.habitat.name == "cave" || p.is_legendary then .YODA else .SHAKESPEARE

/-- Mirrors `translated::get`.  The pokemon client is abstracted as
`fetch` (what `pokemon_client.get_pokemon(&pokemon_name)` returns) and
the translation client as `translate` (what
`translation_client.get_translation(&desc, translation_type)` returns).
Besides the reply, the function returns the list of translation calls
issued, each recorded as the text and variant passed to the client. -/
def Translated.get (pokemon_name : String)
    (fetch : String → Except ClientError Pokemon)
    (translate : String → TranslationType → Except ClientError String) :
    Reply × List (String × TranslationType) :=
  match fetch pokemon_name with
  | .ok pokemon =>
    let translation_type := selectTranslationType pokemon
    match pokemon.get_description with
    | some desc =>
      let reply :=
        match translate desc translation_type with
        | .ok translated_text =>
          Reply.success 200
            ⟨pokemon.name, some translated_text, pokemon.is_legendary, pokemon.habitat.name⟩
        | .error _ =>
          Reply.success 200
            ⟨pokemon.name, some desc, pokemon.is_legendary, pokemon.habitat.name⟩
      (reply, [(desc, translation_type)])
    | none =>
      (Reply.success 200 ⟨pokemon.name, none, pokemon.is_legendary, pokemon.habitat.name⟩, [])
  | .error e =>
    match e with
    | .PokemonNotFoundError => (Reply.failure 404 "Failed to find pokemon", [])
    | _ => (Reply.failure 500 "Failed to get pokemon", [])

/-! ## Plain pokemon route (src/routes/pokemon.rs) -/

/-- Mirrors `get_pokemon` in src/routes/pokemon.rs (lines 26-85).  The
global `POKEMON_CLIENT` is abstracted as `fetch` and the global
`SHAKESPEARE_CLIENT` as `shakespeare`.  Besides the reply, the function
returns the list of texts sent to the shakespeare client. -/
def get_pokemon (pokemon_name : String)
    (fetch : String → Except ClientError Pokemon)
    (shakespeare : String → Except ClientError String) :
    PlainReply × List String :=
  match fetch pokemon_name with
  | .ok pokemon =>
    match get_description pokemon.flavor_text_entries with
    | some description =>
      let reply :=
        match shakespeare description with
        | .ok translation => PlainReply.success 200 ⟨pokemon_name, translation⟩
        | .error e =>
          match e with
          | .ShakespeareTooManyRequestsError => PlainReply.failure 429 "Too many requests"
          | _ => PlainReply.failure 500 "Failed to get shakespeare translation"
      (reply, [description])
    | none => (PlainReply.failure 404 "Failed to find pokemon description", [])
  | .error e =>
    match e with
    | .PokemonNotFoundError => (PlainReply.failure 404 "Failed to find pokemon", [])
    | _ => (PlainReply.failure 500 "Failed to get pokemon", [])

/-! ## Concrete sample data, used to instantiate the theorems -/

/-- The charizard fixture used throughout the test modules of the repo:
urban habitat, not legendary, one English flavor-text entry containing
an embedded newline. -/
def charizard : Pokemon :=
  { id := 6
    name := "charizard"
    is_legendary := false
    habitat := { name := "urban", url := "https://pokeapi.co/api/v2/pokemon-habitat/8/" }
    flavor_text_entries :=
      [{ flavor_text := "Spits fire that is hot enough to melt boulders.\nKnown to cause forest fires unintentionally."
         language := { name := "en", url := "https://pokeapi.co/api/v2/language/9/" } }] }

/-- The normalized charizard description (newline replaced by a space). -/
def charizardDesc : String :=
  "Spits fire that is hot enough to melt boulders. Known to cause forest fires unintentionally."

/-- A cave-dwelling species, as in the zubat fixture of the repo tests. -/
def zubat : Pokemon :=
  { id := 41
    name := "zubat"
    is_legendary := false
    habitat := { name := "cave", url := "https://pokeapi.co/api/v2/pokemon-habitat/1/" }
    flavor_text_entries :=
      [{ flavor_text := "Forms colonies in perpetually dark places."
         language := { name := "en", url := "https://pokeapi.co/api/v2/language/9/" } }] }

/-- A species with a single flavor-text entry whose locale is not "en". -/
def noEnglish : Pokemon :=
  { id := 7
    name := "carapuce"
    is_legendary := false
    habitat := { name := "waters-edge", url := "" }
    flavor_text_entries :=
      [{ flavor_text := "Il se cache dans sa carapace."
         language := { name := "fr", url := "https://pokeapi.co/api/v2/language/5/" } }] }

/-- A species whose English flavor text contains a form-feed character. -/
def formFeedPokemon : Pokemon :=
  { id := 351
    name := "castform"
    is_legendary := false
    habitat := { name := "grassland", url := "" }
    flavor_text_entries :=
      [{ flavor_text := "a\x0Cb"
         language := { name := "en", url := "" } }] }

/-- A transformation response whose success indicator is zero. -/
def badResponse : TranslationResponse :=
  { success := { total := 0 }
    contents := { translated := "t", text := "x", translation := "shakespeare" } }

/-- A translation oracle that always succeeds with a fixed text. -/
def okOracle : String → TranslationType → Except ClientError String :=
  fun _ _ => .ok "Thou art translated"

/-- A translation oracle that always reports a rate limit. -/
def rateLimitedOracle : String → TranslationType → Except ClientError String :=
  fun _ _ => .error .TranslationTooManyRequestsError

/-- A shakespeare-client oracle that always succeeds with a fixed text. -/
def shakespeareOk : String → Except ClientError String :=
  fun _ => .ok "Thou art translated"

/-- A shakespeare-client oracle that always reports a rate limit. -/
def shakespeareRateLimited : String → Except ClientError String :=
  fun _ => .error .ShakespeareTooManyRequestsError

/-! ## Helper lemmas about the character-level replace -/

lemma rustReplace_single_data (t : String) (a b : Char) :
    (rustReplace t a (String.mk [b])).data = t.data.map fun c => if c = a then b else c := by
  show t.data.flatMap _ = _
  induction t.data with
  | nil => rfl
  | cons c l ih =>
    simp only [List.flatMap_cons, List.map_cons, ih]
    by_cases h : c = a <;> simp [h]

lemma rustReplace_delete_data (t : String) (a : Char) :
    (rustReplace t a "").data = t.data.filter fun c => c ≠ a := by
  show t.data.flatMap _ = _
  induction t.data with
  | nil => rfl
  | cons c l ih =>
    simp only [List.flatMap_cons, List.filter_cons, ih]
    by_cases h : c = a <;> simp [h]

lemma normalize_data (t : String) :
    (rustReplace (rustReplace t '\n' " ") '\x0C' "").data =
      (t.data.map fun c => if c = '\n' then ' ' else c).filter fun c => c ≠ '\x0C' := by
  have hsp : (" " : String) = String.mk [' '] := rfl
  rw [rustReplace_delete_data, hsp, rustReplace_single_data]

/-! ## Helper lemmas about the translated route -/

lemma translated_get_ok_some_ok (name : String)
    (fetch : String → Except ClientError Pokemon)
    (translate : String → TranslationType → Except ClientError String)
    (p : Pokemon) (desc t : String)
    (h1 : fetch name = .ok p) (h2 : p.get_description = some desc)
    (h3 : translate desc (selectTranslationType p) = .ok t) :
    Translated.get name fetch translate =
      (.success 200 ⟨p.name, some t, p.is_legendary, p.habitat.name⟩,
       [(desc, selectTranslationType p)]) := by
  simp [Translated.get, h1, h2, h3]

lemma translated_get_ok_some_err (name : String)
    (fetch : String → Except ClientError Pokemon)
    (translate : String → TranslationType → Except ClientError String)
    (p : Pokemon) (desc : String) (e : ClientError)
    (h1 : fetch name = .ok p) (h2 : p.get_description = some desc)
    (h3 : translate desc (selectTranslationType p) = .error e) :
    Translated.get name fetch translate =
      (.success 200 ⟨p.name, some desc, p.is_legendary, p.habitat.name⟩,
       [(desc, selectTranslationType p)]) := by
  simp [Translated.get, h1, h2, h3]

lemma translated_get_ok_none (name : String)
    (fetch : String → Except ClientError Pokemon)
    (translate : String → TranslationType → Except ClientError String)
    (p : Pokemon)
    (h1 : fetch name = .ok p) (h2 : p.get_description = none) :
    Translated.get name fetch translate =
      (.success 200 ⟨p.name, none, p.is_legendary, p.habitat.name⟩, []) := by
  simp [Translated.get, h1, h2]

lemma translated_get_notfound (name : String)
    (fetch : String → Except ClientError Pokemon)
    (translate : String → TranslationType → Except ClientError String)
    (h : fetch name = .error .PokemonNotFoundError) :
    Translated.get name fetch translate = (.failure 404 "Failed to find pokemon", []) := by
  simp [Translated.get, h]

lemma translated_get_other_error (name : String)
    (fetch : String → Except ClientError Pokemon)
    (translate : String → TranslationType → Except ClientError String)
    (e : ClientError)
    (h : fetch name = .error e) (hne : e ≠ .PokemonNotFoundError) :
    Translated.get name fetch translate = (.failure 500 "Failed to get pokemon", []) := by
  cases e <;> first
    | exact absurd rfl hne
    | simp [Translated.get, h]

/-! ## Claim theorems -/

/-- C1: for every species successfully fetched with an English description
entry, if the transformation-client call returns any error, the translated
route returns a success reply whose description equals the normalized,
untranslated description exactly; no transformation error is surfaced. -/
theorem c1_transformation_error_fallback (name : String)
    (fetch : String → Except ClientError Pokemon)
    (translate : String → TranslationType → Except ClientError String)
    (p : Pokemon) (desc : String) (e : ClientError)
    (h1 : fetch name = .ok p) (h2 : p.get_description = some desc)
    (h3 : translate desc (selectTranslationType p) = .error e) :
    (Translated.get name fetch translate).1 =
      .success 200 ⟨p.name, some desc, p.is_legendary, p.habitat.name⟩ := by
  rw [translated_get_ok_some_err name fetch translate p desc e h1 h2 h3]

/-- Witness for C1: the charizard fixture with a rate-limited
transformation service falls back to the normalized description. -/
theorem c1_witness :
    (Translated.get "charizard" (fun _ => .ok charizard) rateLimitedOracle).1 =
      .success 200 ⟨charizard.name, some charizardDesc, charizard.is_legendary,
        charizard.habitat.name⟩ :=
  c1_transformation_error_fallback "charizard" (fun _ => .ok charizard) rateLimitedOracle
    charizard charizardDesc .TranslationTooManyRequestsError rfl (by decide) rfl

/-- C2: the transformation variant selected by the pipeline is YODA
(alternate) exactly when the habitat is "cave" or the species is
legendary, SHAKESPEARE (default) otherwise, and the single transformation
call issued by the translated route carries that variant. -/
theorem c2_variant_selection (p : Pokemon) :
    (selectTranslationType p = .YODA ↔ p.habitat.name = "cave" ∨ p.is_legendary = true) ∧
    (selectTranslationType p = .SHAKESPEARE ↔
      ¬(p.habitat.name = "cave" ∨ p.is_legendary = true)) ∧
    ∀ (name : String) (fetch : String → Except ClientError Pokemon)
      (translate : String → TranslationType → Except ClientError String) (desc : String),
      fetch name = .ok p → p.get_description = some desc →
      (Translated.get name fetch translate).2 = [(desc, selectTranslationType p)] := by
  refine ⟨?_, ?_, ?_⟩
  · simp only [selectTranslationType]
    by_cases h1 : p.habitat.name = "cave" <;> by_cases h2 : p.is_legendary <;> simp [h1, h2]
  · simp only [selectTranslationType]
    by_cases h1 : p.habitat.name = "cave" <;> by_cases h2 : p.is_legendary <;> simp [h1, h2]
  · intro name fetch translate desc h1 h2
    cases h3 : translate desc (selectTranslationType p) with
    | ok t => rw [translated_get_ok_some_ok name fetch translate p desc t h1 h2 h3]
    | error e => rw [translated_get_ok_some_err name fetch translate p desc e h1 h2 h3]

/-- Witness for C2: the cave-dwelling zubat fixture selects YODA and the
translated route issues exactly that call. -/
theorem c2_witness :
    selectTranslationType zubat = .YODA ∧
    (Translated.get "zubat" (fun _ => .ok zubat) okOracle).2 =
      [("Forms colonies in perpetually dark places.", selectTranslationType zubat)] :=
  ⟨(c2_variant_selection zubat).1.mpr (Or.inl rfl),
   (c2_variant_selection zubat).2.2 "zubat" (fun _ => .ok zubat) okOracle
     "Forms colonies in perpetually dark places." rfl (by decide)⟩

/-- C6: the species client classifies each fetch outcome exactly as: 200
with a deserializable body yields the species, 200 with a body that fails
to deserialize yields PokemonDeserializationError, 404 yields
PokemonNotFoundError, and a transport failure or any other status yields
PokemonAPIError. -/
theorem c6_species_client_classification :
    (∀ p : Pokemon, PokemonClient.get_pokemon (.response 200 (some p)) = .ok p) ∧
    PokemonClient.get_pokemon (.response 200 none) = .error .PokemonDeserializationError ∧
    (∀ b : Option Pokemon,
      PokemonClient.get_pokemon (.response 404 b) = .error .PokemonNotFoundError) ∧
    PokemonClient.get_pokemon .transportError = .error .PokemonAPIError ∧
    (∀ (s : Nat) (b : Option Pokemon), s ≠ 200 → s ≠ 404 →
      PokemonClient.get_pokemon (.response s b) = .error .PokemonAPIError) := by
  refine ⟨fun p => rfl, rfl, fun b => rfl, rfl, fun s b h200 h404 => ?_⟩
  simp [PokemonClient.get_pokemon, h200, h404]

/-- Witness for C6: a 500 response is classified as PokemonAPIError. -/
theorem c6_witness :
    PokemonClient.get_pokemon (.response 500 none) = .error .PokemonAPIError :=
  c6_species_client_classification.2.2.2.2 500 none (by decide) (by decide)

/-- C7: when the species fetch reports the species as absent, the
translated route replies 404 with the not-found error body, issues no
transformation call, and its result does not depend on the transformation
service at all. -/
theorem c7_notfound_no_translation (name : String)
    (fetch : String → Except ClientError Pokemon)
    (translate translate2 : String → TranslationType → Except ClientError String)
    (h : fetch name = .error .PokemonNotFoundError) :
    (Translated.get name fetch translate).1 = .failure 404 "Failed to find pokemon" ∧
    (Translated.get name fetch translate).2 = [] ∧
    Translated.get name fetch translate = Translated.get name fetch translate2 := by
  rw [translated_get_notfound name fetch translate h,
      translated_get_notfound name fetch translate2 h]
  exact ⟨rfl, rfl, rfl⟩

/-- Witness for C7: a concrete absent species gives 404, no calls, and
identical output under two different transformation oracles. -/
theorem c7_witness :
    (Translated.get "mewthree" (fun _ => .error .PokemonNotFoundError) okOracle).1 =
      .failure 404 "Failed to find pokemon" ∧
    (Translated.get "mewthree" (fun _ => .error .PokemonNotFoundError) okOracle).2 = [] ∧
    Translated.get "mewthree" (fun _ => .error .PokemonNotFoundError) okOracle =
      Translated.get "mewthree" (fun _ => .error .PokemonNotFoundError) rateLimitedOracle :=
  c7_notfound_no_translation "mewthree" (fun _ => .error .PokemonNotFoundError)
    okOracle rateLimitedOracle rfl

/-- C8: a fetched species with no English description entry is a
successful terminal state: the translated route replies 200 with an
absent description. -/
theorem c8_no_english_success (name : String)
    (fetch : String → Except ClientError Pokemon)
    (translate : String → TranslationType → Except ClientError String)
    (p : Pokemon)
    (h1 : fetch name = .ok p) (h2 : p.get_description = none) :
    (Translated.get name fetch translate).1 =
      .success 200 ⟨p.name, none, p.is_legendary, p.habitat.name⟩ := by
  rw [translated_get_ok_none name fetch translate p h1 h2]

/-- Witness for C8: the French-only fixture yields a 200 reply with no
description. -/
theorem c8_witness :
    (Translated.get "carapuce" (fun _ => .ok noEnglish) okOracle).1 =
      .success 200 ⟨noEnglish.name, none, noEnglish.is_legendary, noEnglish.habitat.name⟩ :=
  c8_no_english_success "carapuce" (fun _ => .ok noEnglish) okOracle noEnglish rfl (by decide)

/-- C9: a fetched species with no English description entry causes no
transformation call, and the output of the translated route is identical
for any two behaviors of the transformation service. -/
theorem c9_no_english_no_call (name : String)
    (fetch : String → Except ClientError Pokemon)
    (translate : String → TranslationType → Except ClientError String)
    (p : Pokemon)
    (h1 : fetch name = .ok p) (h2 : p.get_description = none) :
    (Translated.get name fetch translate).2 = [] ∧
    ∀ translate2, Translated.get name fetch translate =
      Translated.get name fetch translate2 := by
  refine ⟨?_, fun translate2 => ?_⟩
  · rw [translated_get_ok_none name fetch translate p h1 h2]
  · rw [translated_get_ok_none name fetch translate p h1 h2,
        translated_get_ok_none name fetch translate2 p h1 h2]

/-- Witness for C9: the French-only fixture issues no call and produces
the same output under two different transformation oracles. -/
theorem c9_witness :
    (Translated.get "carapuce" (fun _ => .ok noEnglish) okOracle).2 = [] ∧
    Translated.get "carapuce" (fun _ => .ok noEnglish) okOracle =
      Translated.get "carapuce" (fun _ => .ok noEnglish) rateLimitedOracle :=
  ⟨(c9_no_english_no_call "carapuce" (fun _ => .ok noEnglish) okOracle noEnglish rfl
      (by decide)).1,
   (c9_no_english_no_call "carapuce" (fun _ => .ok noEnglish) okOracle noEnglish rfl
      (by decide)).2 rateLimitedOracle⟩

/-- C10: every successful reply of the translated route copies name,
legendary flag, and habitat unchanged from the fetched species; in
particular the replied name is the upstream species name, not the request
path segment, even when the two differ. -/
theorem c10_fields_copied (name : String)
    (fetch : String → Except ClientError Pokemon)
    (translate : String → TranslationType → Except ClientError String)
    (p : Pokemon) (st : Nat) (r : PokemonResponse)
    (h1 : fetch name = .ok p)
    (h2 : (Translated.get name fetch translate).1 = .success st r) :
    r.name = p.name ∧ r.is_legendary = p.is_legendary ∧ r.habitat = p.habitat.name ∧
    (name ≠ p.name → r.name ≠ name) := by
  have hmain : r.name = p.name ∧ r.is_legendary = p.is_legendary ∧
      r.habitat = p.habitat.name := by
    rcases hd : p.get_description with _ | desc
    · rw [translated_get_ok_none name fetch translate p h1 hd] at h2
      injection h2 with hst hr
      rw [← hr]
      exact ⟨rfl, rfl, rfl⟩
    · rcases ht : translate desc (selectTranslationType p) with t | e
      · rw [translated_get_ok_some_err name fetch translate p desc t h1 hd ht] at h2
        injection h2 with hst hr
        rw [← hr]
        exact ⟨rfl, rfl, rfl⟩
      · rw [translated_get_ok_some_ok name fetch translate p desc e h1 hd ht] at h2
        injection h2 with hst hr
        rw [← hr]
        exact ⟨rfl, rfl, rfl⟩
  exact ⟨hmain.1, hmain.2.1, hmain.2.2, fun hne => hmain.1 ▸ fun h => hne h.symm⟩

/-- Witness for C10: requesting path name "zubat-alias" while the
upstream species is the zubat fixture still replies with the upstream
name. -/
theorem c10_witness :
    (⟨"zubat", some "Thou art translated", false, "cave"⟩ : PokemonResponse).name =
      zubat.name ∧
    (⟨"zubat", some "Thou art translated", false, "cave"⟩ : PokemonResponse).is_legendary =
      zubat.is_legendary ∧
    (⟨"zubat", some "Thou art translated", false, "cave"⟩ : PokemonResponse).habitat =
      zubat.habitat.name ∧
    ("zubat-alias" ≠ zubat.name →
      (⟨"zubat", some "Thou art translated", false, "cave"⟩ : PokemonResponse).name ≠
        "zubat-alias") :=
  c10_fields_copied "zubat-alias" (fun _ => .ok zubat) okOracle zubat 200
    ⟨"zubat", some "Thou art translated", false, "cave"⟩ rfl (by decide)

/-- C3 counterexample: the code deletes a form-feed character instead of
collapsing it to a single space, so on the flavor text "a\x0Cb" the
implementation produces "ab" while the claimed normalization produces
"a b". -/
theorem c3_counterexample :
    formFeedPokemon.get_description = some "ab" ∧
    claimNormalize "a\x0Cb" = "a b" ∧
    ("ab" : String) ≠ "a b" := by
  refine ⟨by decide, by decide, by decide⟩

/-- C3 (amended): normalization of the selected English flavor text
replaces each embedded newline with a single space and removes each
form-feed character, preserving all other characters; consequently the
normalized description contains no newline and no form-feed. -/
theorem c3_normalization (p : Pokemon) (entry : FlavorTextEntry) (desc : String)
    (hfind : p.flavor_text_entries.find? (fun e => e.language.name == "en") = some entry)
    (hdesc : p.get_description = some desc) :
    desc.data = (entry.flavor_text.data.map fun c => if c = '\n' then ' ' else c).filter
      (fun c => c ≠ '\x0C') ∧
    '\n' ∉ desc.data ∧ '\x0C' ∉ desc.data := by
  have hd : desc = rustReplace (rustReplace entry.flavor_text '\n' " ") '\x0C' "" := by
    rw [Pokemon.get_description, hfind] at hdesc
    simpa using hdesc.symm
  subst hd
  refine ⟨normalize_data _, ?_, ?_⟩
  · rw [normalize_data]
    intro hmem
    have hmem2 := List.mem_of_mem_filter hmem
    rw [List.mem_map] at hmem2
    obtain ⟨c, hc, hceq⟩ := hmem2
    by_cases h : c = '\n' <;> simp [h] at hceq
  · rw [normalize_data]
    intro hmem
    have hprop := List.of_mem_filter hmem
    simp at hprop

/-- Witness for C3 (amended): the charizard flavor text with an embedded
newline normalizes to the space-joined description, which contains no
newline and no form-feed. -/
theorem c3_witness :
    charizardDesc.data =
      (("Spits fire that is hot enough to melt boulders.\nKnown to cause forest fires unintentionally." : String).data.map
        fun c => if c = '\n' then ' ' else c).filter (fun c => c ≠ '\x0C') ∧
    '\n' ∉ charizardDesc.data ∧ '\x0C' ∉ charizardDesc.data :=
  c3_normalization charizard
    ⟨"Spits fire that is hot enough to melt boulders.\nKnown to cause forest fires unintentionally.",
     ⟨"en", "https://pokeapi.co/api/v2/language/9/"⟩⟩
    charizardDesc (by decide) (by decide)

/-- C5 counterexample: a 200 response whose success indicator is not one
yields TranslationAPIError, which is a different error kind than the
TranslationDeserializationError produced by a body that fails to
deserialize. -/
theorem c5_counterexample :
    TranslationClient.get_translation (.response 200 (some badResponse)) =
      .error .TranslationAPIError ∧
    TranslationClient.get_translation (.response 200 none) =
      .error .TranslationDeserializationError ∧
    ClientError.TranslationAPIError ≠ ClientError.TranslationDeserializationError := by
  refine ⟨rfl, rfl, by decide⟩

/-- C5 (amended): a 200 transformation response returns the translated
text exactly when the success total is one; any other total yields
TranslationAPIError (the generic upstream kind, not the deserialization
kind), and the translated route behaves identically to the 429 fallback
case. -/
theorem c5_success_total (r : TranslationResponse) :
    (TranslationClient.get_translation (.response 200 (some r)) = .ok r.contents.translated ↔
      r.success.total = 1) ∧
    (r.success.total ≠ 1 →
      TranslationClient.get_translation (.response 200 (some r)) =
        .error .TranslationAPIError ∧
      ∀ (name : String) (fetch : String → Except ClientError Pokemon),
        Translated.get name fetch
          (fun _ _ => TranslationClient.get_translation (.response 200 (some r))) =
        Translated.get name fetch
          (fun _ _ => TranslationClient.get_translation (.response 429 none))) := by
  have hred : TranslationClient.get_translation (.response 200 (some r)) =
      r.get_translation := rfl
  by_cases h : r.success.total = 1
  · refine ⟨?_, fun hne => absurd h hne⟩
    rw [hred]
    simp [TranslationResponse.get_translation, h]
  · have herr : r.get_translation = .error .TranslationAPIError := by
      simp [TranslationResponse.get_translation, h]
    refine ⟨?_, fun _ => ⟨by rw [hred, herr], fun name fetch => ?_⟩⟩
    · rw [hred, herr]
      simp [h]
    · rcases hf : fetch name with e | p
      · by_cases hne : e = .PokemonNotFoundError
        · subst hne
          rw [translated_get_notfound name fetch _ hf, translated_get_notfound name fetch _ hf]
        · rw [translated_get_other_error name fetch _ e hf hne,
              translated_get_other_error name fetch _ e hf hne]
      · rcases hd : p.get_description with _ | desc
        · rw [translated_get_ok_none name fetch _ p hf hd,
              translated_get_ok_none name fetch _ p hf hd]
        · rw [translated_get_ok_some_err name fetch _ p desc .TranslationAPIError hf hd
                (by rw [hred, herr]),
              translated_get_ok_some_err name fetch _ p desc .TranslationTooManyRequestsError
                hf hd rfl]

/-- Witness for C5 (amended): the zero-total response is classified as
TranslationAPIError and the pipeline output matches the 429 case on the
charizard fixture. -/
theorem c5_witness :
    TranslationClient.get_translation (.response 200 (some badResponse)) =
      .error .TranslationAPIError ∧
    Translated.get "charizard" (fun _ => .ok charizard)
      (fun _ _ => TranslationClient.get_translation (.response 200 (some badResponse))) =
    Translated.get "charizard" (fun _ => .ok charizard)
      (fun _ _ => TranslationClient.get_translation (.response 429 none)) :=
  ⟨((c5_success_total badResponse).2 (by decide)).1,
   ((c5_success_total badResponse).2 (by decide)).2 "charizard" (fun _ => .ok charizard)⟩

/-- C4 counterexample: with the charizard fixture and a succeeding
shakespeare client, the plain route handler in src/routes/pokemon.rs
issues a transformation call and replies with the translated text rather
than the untranslated normalized description. -/
theorem c4_counterexample :
    (get_pokemon "charizard" (fun _ => .ok charizard) shakespeareOk).2 = [charizardDesc] ∧
    (get_pokemon "charizard" (fun _ => .ok charizard) shakespeareOk).1 =
      .success 200 ⟨"charizard", "Thou art translated"⟩ ∧
    "Thou art translated" ≠ charizardDesc := by
  refine ⟨by decide, by decide, by decide⟩

/-- C4 (amended): the plain route handler in src/routes/pokemon.rs
fetches the species, selects and normalizes the description, and then
always attempts a shakespeare transformation when a description exists:
on transformation success it replies 200 with the translated text under
the requested name, a rate-limited transformation yields 429, any other
transformation error yields 500, a missing description yields 404, a
species NotFoundError yields 404, and any other species-client error
yields 500. -/
theorem c4_plain_route_behavior (name : String)
    (fetch : String → Except ClientError Pokemon)
    (shakespeare : String → Except ClientError String) :
    (∀ p desc, fetch name = .ok p → get_description p.flavor_text_entries = some desc →
      (get_pokemon name fetch shakespeare).2 = [desc] ∧
      (∀ t, shakespeare desc = .ok t →
        (get_pokemon name fetch shakespeare).1 = .success 200 ⟨name, t⟩) ∧
      (shakespeare desc = .error .ShakespeareTooManyRequestsError →
        (get_pokemon name fetch shakespeare).1 = .failure 429 "Too many requests") ∧
      (∀ e, shakespeare desc = .error e → e ≠ .ShakespeareTooManyRequestsError →
        (get_pokemon name fetch shakespeare).1 =
          .failure 500 "Failed to get shakespeare translation")) ∧
    (∀ p, fetch name = .ok p → get_description p.flavor_text_entries = none →
      get_pokemon name fetch shakespeare =
        (.failure 404 "Failed to find pokemon description", [])) ∧
    (fetch name = .error .PokemonNotFoundError →
      get_pokemon name fetch shakespeare = (.failure 404 "Failed to find pokemon", [])) ∧
    (∀ e, fetch name = .error e → e ≠ .PokemonNotFoundError →
      get_pokemon name fetch shakespeare = (.failure 500 "Failed to get pokemon", [])) := by
  refine ⟨fun p desc h1 h2 => ⟨?_, fun t h3 => ?_, fun h3 => ?_, fun e h3 hne => ?_⟩,
    fun p h1 h2 => ?_, fun h => ?_, fun e h hne => ?_⟩
  · simp [get_pokemon, h1, h2]
  · simp [get_pokemon, h1, h2, h3]
  · simp [get_pokemon, h1, h2, h3]
  · cases e <;> first
      | exact absurd rfl hne
      | simp [get_pokemon, h1, h2, h3]
  · simp [get_pokemon, h1, h2]
  · simp [get_pokemon, h]
  · cases e <;> first
      | exact absurd rfl hne
      | simp [get_pokemon, h]

/-- Witness for C4 (amended): the charizard fixture with a rate-limited
shakespeare client issues the call and replies 429. -/
theorem c4_witness :
    (get_pokemon "charizard" (fun _ => .ok charizard) shakespeareRateLimited).2 =
      [charizardDesc] ∧
    (get_pokemon "charizard" (fun _ => .ok charizard) shakespeareRateLimited).1 =
      .failure 429 "Too many requests" :=
  ⟨((c4_plain_route_behavior "charizard" (fun _ => .ok charizard) shakespeareRateLimited).1
      charizard charizardDesc rfl (by decide)).1,
   ((c4_plain_route_behavior "charizard" (fun _ => .ok charizard) shakespeareRateLimited).1
      charizard charizardDesc rfl (by decide)).2.2.1 rfl⟩

end Svc
